import Mathlib

/-! Shallow embedding of the OpenTTD tunnel map code (tunnel_map.h, tunnel_map.cpp
and tunnelbridge_map.h) for checking the tunnel/bridge specification.

Machine integers are modelled as Nat with explicit 8-bit (resp. 16-bit)
truncation inside the bit setters.  The world grid is modelled, as the spec
describes the external grid store, by explicit (x, y) coordinates over Int,
an in-grid validity predicate, a height query and per-direction unit offsets.
Functions whose C++ bodies guard their work with assertions that a claim is
about are modelled with Option: none models the assertion firing (abort). -/

set_option maxRecDepth 10000

namespace OpenTTD

/-- Tile type tag of tunnel/bridge tiles (MP_TUNNELBRIDGE). -/
def MP_TUNNELBRIDGE : Nat := 9

/-- Transport type stored in m5 bits 2..3; TRANSPORT_RAIL is 0 (as the
repository test test_direction_storage records). -/
def TRANSPORT_RAIL : Nat := 0

/-- Transport type of road tunnels. -/
def TRANSPORT_ROAD : Nat := 1

def DIR_N : Nat := 0
def DIR_NE : Nat := 1
def DIR_E : Nat := 2
def DIR_SE : Nat := 3
def DIR_S : Nat := 4
def DIR_SW : Nat := 5
def DIR_W : Nat := 6
def DIR_NW : Nat := 7

def DIAGDIR_NE : Nat := 0
def DIAGDIR_SE : Nat := 1
def DIAGDIR_SW : Nat := 2
def DIAGDIR_NW : Nat := 3

def RTT_ROAD : Nat := 0
def RTT_TRAM : Nat := 1

def OWNER_TOWN : Nat := 15

def TRACK_BIT_NONE : Nat := 0
def TRACK_BIT_X : Nat := 1
def TRACK_BIT_Y : Nat := 2

/-- GB from core/bitmath_func.hpp (also restated in the repository test file):
read n bits of x starting at bit s. -/
def GB (x s n : Nat) : Nat := (x >>> s) &&& (2 ^ n - 1)

/-- SB from core/bitmath_func.hpp on an 8-bit field: clear n bits of x starting
at bit s and or in d shifted to position s, truncating to 8 bits as the
uint8_t instantiation of the C++ template does. -/
def SB8 (x s n d : Nat) : Nat :=
  ((x &&& 255) &&& (255 ^^^ (((2 ^ n - 1) <<< s) &&& 255))) ||| ((d <<< s) &&& 255)

/-- SB on a 16-bit field (m2 and m8 are 16 bits wide). -/
def SB16 (x s n d : Nat) : Nat :=
  ((x &&& 65535) &&& (65535 ^^^ (((2 ^ n - 1) <<< s) &&& 65535))) ||| ((d <<< s) &&& 65535)

/-- HasBit from core/bitmath_func.hpp. -/
def HasBit (x n : Nat) : Bool := (x >>> n) &&& 1 == 1

/-- The per-tile fields of the grid store: a type tag plus the eight small
integer fields m1..m8 that the tunnel code reads and writes. -/
structure TileData where
  type : Nat
  m1 : Nat
  m2 : Nat
  m3 : Nat
  m4 : Nat
  m5 : Nat
  m6 : Nat
  m7 : Nat
  m8 : Nat
deriving DecidableEq

/-- A tile with every field zero (ordinary terrain, not MP_TUNNELBRIDGE). -/
def emptyTile : TileData := ⟨0, 0, 0, 0, 0, 0, 0, 0, 0⟩

/-- Modelled from the spec: the grid field store's tile-type tag read
(external collaborator; tile_map.h is not part of this repository slice). -/
def GetTileType (t : TileData) : Nat := t.type

/-- IsTileType as used throughout the sources: the type tag equals ty. -/
def IsTileType (t : TileData) (ty : Nat) : Bool := GetTileType t == ty

/-- Modelled from the spec: the grid field store's tile-type tag write. -/
def SetTileType (t : TileData) (ty : Nat) : TileData := { t with type := ty }

/-- Modelled from the spec: ownership payload write (external collaborator);
it writes only the owner bits of m1, never m5, m2 or the type tag. -/
def SetTileOwner (t : TileData) (o : Nat) : TileData := { t with m1 := SB8 t.m1 0 5 o }

/-- Modelled from the spec: rail sub-type payload write (external
collaborator); it writes only the rail-type bits of m8. -/
def SetRailType (t : TileData) (r : Nat) : TileData := { t with m8 := SB16 t.m8 0 6 r }

/-- Modelled from the spec: road ownership payload write (external
collaborator); it writes only payload fields (m7 for road, m3 for tram). -/
def SetRoadOwner (t : TileData) (rtt o : Nat) : TileData :=
  if rtt = RTT_ROAD then { t with m7 := SB8 t.m7 0 5 o } else { t with m3 := SB8 t.m3 0 5 o }

/-- Modelled from the spec: road/tram sub-type payload write (external
collaborator); it writes only payload fields m4 and m8. -/
def SetRoadTypes (t : TileData) (road_rt tram_rt : Nat) : TileData :=
  { t with m4 := SB8 t.m4 0 6 road_rt, m8 := SB16 t.m8 6 6 tram_rt }

/-- Modelled from the spec: the widening-inverse from the 8-way direction
enumeration onto the 4 diagonal directions (direction vocabulary, external).
It halves the direction value, so each diagonal direction DIR_NE/SE/SW/NW
(1/3/5/7) maps to DIAGDIR_NE/SE/SW/NW (0/1/2/3). -/
def DirToDiagDir (d : Nat) : Nat := d >>> 1

/-- Modelled from the spec: the injective, total widening of a diagonal
direction to its 8-way value (direction vocabulary, external). -/
def DiagDirToDir (d : Nat) : Nat := 2 * d + 1

/-- Modelled from the spec: the reverse-direction function on the 8-way
enumeration (direction vocabulary, external); xor with 4 rotates by 180
degrees for all direction values 0..7. -/
def ReverseDir (d : Nat) : Nat := d ^^^ 4

/-- Modelled from the spec: the per-direction unit-offset vectors of the 8-way
enumeration (grid geometry, external), as (x, y) coordinate deltas. -/
def TileOffsByDir (d : Nat) : Int × Int :=
  match d % 8 with
  | 0 => (-1, -1)
  | 1 => (-1, 0)
  | 2 => (-1, 1)
  | 3 => (0, 1)
  | 4 => (1, 1)
  | 5 => (1, 0)
  | 6 => (1, -1)
  | _ => (0, -1)

/-- Modelled from the spec: the per-direction unit-offset vectors of the
diagonal-direction enumeration (grid geometry, external). -/
def TileOffsByDiagDir (d : Nat) : Int × Int :=
  match d % 4 with
  | 0 => (-1, 0)
  | 1 => (0, 1)
  | 2 => (1, 0)
  | _ => (0, -1)

/-- IsTunnel from tunnel_map.h: on an MP_TUNNELBRIDGE tile (asserted
precondition), a tile is a tunnel entrance iff bit 7 of m5 is clear. -/
def IsTunnel (t : TileData) : Bool := !HasBit t.m5 7

/-- IsTunnelTile from tunnel_map.h: total; the tile-type tag is
MP_TUNNELBRIDGE and the wormhole-kind bit says tunnel. -/
def IsTunnelTile (t : TileData) : Bool := IsTileType t MP_TUNNELBRIDGE && IsTunnel t

/-- MakeRoadTunnel from tunnel_map.h: stores the diagonal direction in m5 bits
0..1 and TRANSPORT_ROAD in m5 bits 2..3, clears the other fields and assigns
road/tram ownership and types. -/
def MakeRoadTunnel (t : TileData) (o d road_rt tram_rt : Nat) : TileData :=
  let t := SetTileType t MP_TUNNELBRIDGE
  let t := SetTileOwner t o
  let t := { t with m2 := 0, m3 := 0, m4 := 0, m5 := 0 }
  let t := { t with m5 := SB8 t.m5 0 2 d }
  let t := { t with m5 := SB8 t.m5 2 2 TRANSPORT_ROAD }
  let t := { t with m6 := SB8 t.m6 2 4 0 }
  let t := { t with m7 := 0, m8 := 0 }
  let t := SetRoadOwner t RTT_ROAD o
  let t := if o ≠ OWNER_TOWN then SetRoadOwner t RTT_TRAM o else t
  SetRoadTypes t road_rt tram_rt

/-- MakeRailTunnel from tunnel_map.h (the 8-way Direction overload): an
orthogonal direction (DIR_N/E/S/W) is stored in extended format (low bit in
m5 bit 0, the two high bits in m5 bits 6..7, flag bit 5 set); a diagonal
direction is stored as its DiagDirection in m5 bits 0..1 with bit 5 clear;
then TRANSPORT_RAIL goes to m5 bits 2..3. -/
def MakeRailTunnel (t : TileData) (o d r : Nat) : TileData :=
  let t := SetTileType t MP_TUNNELBRIDGE
  let t := SetTileOwner t o
  let t := { t with m2 := 0, m3 := 0, m4 := 0, m5 := 0 }
  let t :=
    if d = DIR_N ∨ d = DIR_E ∨ d = DIR_S ∨ d = DIR_W then
      let m5 := SB8 t.m5 0 1 (d &&& 1)
      let m5 := SB8 m5 6 2 ((d >>> 1) &&& 3)
      let m5 := SB8 m5 5 1 1
      { t with m5 := m5 }
    else
      let m5 := SB8 t.m5 0 2 (DirToDiagDir d)
      let m5 := SB8 m5 5 1 0
      { t with m5 := m5 }
  let t := { t with m5 := SB8 t.m5 2 2 TRANSPORT_RAIL }
  let t := { t with m6 := SB8 t.m6 2 4 0 }
  let t := { t with m7 := 0, m8 := 0 }
  SetRailType t r

/-- GetTunnelBridgeDirection from tunnelbridge_map.h: after asserting the tile
type, the body returns the constant DIR_N (it does not read m5 bits 0..1). -/
def GetTunnelBridgeDirection (t : TileData) : Nat := DIR_N

/-- GetTunnelBridgeTransportType from tunnelbridge_map.h: after asserting the
tile type, the body returns the constant TRANSPORT_RAIL (it does not read m5
bits 2..3). -/
def GetTunnelBridgeTransportType (t : TileData) : Nat := TRANSPORT_RAIL

/-- HasTunnelBridgeSnowOrDesert from tunnelbridge_map.h: asserts the tile type
(none models the assertion firing) and then returns the constant false. -/
def HasTunnelBridgeSnowOrDesert (t : TileData) : Option Bool :=
  if IsTileType t MP_TUNNELBRIDGE then some false else none

/-- SetTunnelBridgeSnowOrDesert from tunnelbridge_map.h: asserts the tile type
and then leaves the tile unchanged (the body discards its arguments). -/
def SetTunnelBridgeSnowOrDesert (t : TileData) (snow_or_desert : Bool) : Option TileData :=
  if IsTileType t MP_TUNNELBRIDGE then some t else none

/-- HasTunnelBridgeReservation from tunnelbridge_map.h: asserts the tile type
and that GetTunnelBridgeTransportType yields TRANSPORT_RAIL, then returns the
constant false. -/
def HasTunnelBridgeReservation (t : TileData) : Option Bool :=
  if IsTileType t MP_TUNNELBRIDGE then
    if GetTunnelBridgeTransportType t = TRANSPORT_RAIL then some false else none
  else none

/-- SetTunnelBridgeReservation from tunnelbridge_map.h: asserts the tile type
and that GetTunnelBridgeTransportType yields TRANSPORT_RAIL, then leaves the
tile unchanged (the body discards its arguments). -/
def SetTunnelBridgeReservation (t : TileData) (b : Bool) : Option TileData :=
  if IsTileType t MP_TUNNELBRIDGE then
    if GetTunnelBridgeTransportType t = TRANSPORT_RAIL then some t else none
  else none

/-- Modelled from the spec: DiagDirToDiagTrackBits (track vocabulary,
external): each diagonal direction maps to the single straight track bit of
its axis, NE/SW to the X track and SE/NW to the Y track. -/
def DiagDirToDiagTrackBits (d : Nat) : Nat :=
  if d % 2 = 0 then TRACK_BIT_X else TRACK_BIT_Y

/-- GetTunnelBridgeReservationTrackBits from tunnelbridge_map.h: if there is
no reservation, TRACK_BIT_NONE; otherwise map the stored direction to track
bits (dir below 4 via DiagDirToDiagTrackBits, otherwise by the N/S and E/W
cases).  The assertion inside HasTunnelBridgeReservation propagates as none. -/
def GetTunnelBridgeReservationTrackBits (t : TileData) : Option Nat :=
  match HasTunnelBridgeReservation t with
  | none => none
  | some false => some TRACK_BIT_NONE
  | some true =>
    let dir := GetTunnelBridgeDirection t
    if dir < 4 then some (DiagDirToDiagTrackBits dir)
    else if dir = DIR_N ∨ dir = DIR_S then some TRACK_BIT_X
    else if dir = DIR_E ∨ dir = DIR_W then some TRACK_BIT_Y
    else some (TRACK_BIT_X ||| TRACK_BIT_Y)

/-- Modelled from the spec: GetTunnelBridgeFullDirection, whose definition is
missing from this repository slice (only its callers GetOtherTunnelEnd and the
retrieval logic restated in the repository test test_direction_storage are
present).  Following the spec: if the tile is a tunnel, the transport type is
rail and the extended-direction flag (m5 bit 5) is set, reconstruct the 3-bit
direction from the stored low bit (m5 bit 0) and the two high bits (m5 bits
6..7, shifted to positions 1..2); otherwise widen the 4-way base direction
(m5 bits 0..1) to its 8-way value. -/
def GetTunnelBridgeFullDirection (t : TileData) : Nat :=
  if IsTunnel t && (GB t.m5 2 2 == TRANSPORT_RAIL) && (GB t.m5 5 1 == 1) then
    GB t.m5 0 1 ||| (GB t.m5 6 2 <<< 1)
  else
    DiagDirToDir (GB t.m5 0 2)

/-- Modelled from the spec: the world grid as the external grid store exposes
it: dimensions, the per-tile fields and the height at each index.  Tiles are
addressed by (x, y) coordinates over Int. -/
structure World where
  sizeX : Int
  sizeY : Int
  tileAt : Int × Int → TileData
  heightAt : Int × Int → Int

/-- Modelled from the spec: the grid store's validity predicate, true iff the
coordinates lie inside the grid. -/
def IsValidTile (w : World) (p : Int × Int) : Bool :=
  decide (0 ≤ p.1) && decide (p.1 < w.sizeX) && decide (0 ≤ p.2) && decide (p.2 < w.sizeY)

/-- Modelled from the spec: the grid store's height query. -/
def GetTileZ (w : World) (p : Int × Int) : Int := w.heightAt p

/-- The tile reached from p after k unit steps of delta. -/
def stepN (p delta : Int × Int) (k : Nat) : Int × Int :=
  (p.1 + k * delta.1, p.2 + k * delta.2)

/-- The loop exit condition of GetOtherTunnelEnd (tunnel_map.cpp): the visited
tile is a tunnel tile, its full direction is rdir and its height is z. -/
def TunnelEndMatch (w : World) (rdir : Nat) (z : Int) (q : Int × Int) : Bool :=
  IsTunnelTile (w.tileAt q) && (GetTunnelBridgeFullDirection (w.tileAt q) == rdir)
    && (GetTileZ w q == z)

/-- MAX_TUNNEL_STEPS from tunnel_map.cpp: the explicit step-count safety
bound of the tunnel-end walk. -/
def MAX_TUNNEL_STEPS : Nat := 1000

/-- The do-while walk of GetOtherTunnelEnd (tunnel_map.cpp): advance one step
and bump the counter; if the new tile is invalid or the counter exceeds
MAX_TUNNEL_STEPS the code hits NOT_REACHED (modelled as none); otherwise stop
with the new tile when the exit condition holds, else iterate. -/
def getOtherTunnelEndLoop (w : World) (delta : Int × Int) (rdir : Nat) (z : Int)
    (cur : Int × Int) (steps : Nat) : Option (Int × Int) :=
  if h : IsValidTile w (cur.1 + delta.1, cur.2 + delta.2) = false
      ∨ steps + 1 > MAX_TUNNEL_STEPS then
    none
  else if TunnelEndMatch w rdir z (cur.1 + delta.1, cur.2 + delta.2) then
    some (cur.1 + delta.1, cur.2 + delta.2)
  else
    getOtherTunnelEndLoop w delta rdir z (cur.1 + delta.1, cur.2 + delta.2) (steps + 1)
termination_by MAX_TUNNEL_STEPS + 1 - steps
decreasing_by
  push_neg at h
  omega

/-- GetOtherTunnelEnd from tunnel_map.cpp: decode the full direction, its unit
offset, the entrance height and the reverse direction (the assertion that the
argument is a tunnel tile is a precondition), then run the walk from the
entrance with the step counter at zero. -/
def GetOtherTunnelEnd (w : World) (p : Int × Int) : Option (Int × Int) :=
  getOtherTunnelEndLoop w (TileOffsByDir (GetTunnelBridgeFullDirection (w.tileAt p)))
    (ReverseDir (GetTunnelBridgeFullDirection (w.tileAt p))) (GetTileZ w p) p 0

/-- The do-while walk of IsTunnelInWayDir (tunnel_map.cpp): step the tile
against the direction offset; outside the grid return false; while the height
of the visited tile exceeds z keep walking; at the first tile of height at
most z return whether the height is exactly z, the tile is a tunnel tile and
GetTunnelBridgeDirection equals dir.  The fuel argument only bounds the
recursion; the walk itself leaves the finite grid after finitely many unit
steps, and IsTunnelInWayDir supplies fuel dominating that number. -/
def isTunnelInWayDirLoop (w : World) (z : Int) (dir : Nat) :
    Int × Int → Nat → Bool
  | _, 0 => false
  | tile, fuel + 1 =>
    let delta := TileOffsByDiagDir dir
    let tile' : Int × Int := (tile.1 - delta.1, tile.2 - delta.2)
    if IsValidTile w tile' = false then false
    else if z < GetTileZ w tile' then isTunnelInWayDirLoop w z dir tile' fuel
    else
      decide (z = GetTileZ w tile') && IsTunnelTile (w.tileAt tile')
        && (GetTunnelBridgeDirection (w.tileAt tile') == dir)

/-- IsTunnelInWayDir from tunnel_map.cpp, with fuel that dominates the number
of unit steps the walk can make before leaving the grid. -/
def IsTunnelInWayDir (w : World) (tile : Int × Int) (z : Int) (dir : Nat) : Bool :=
  isTunnelInWayDirLoop w z dir tile
    (w.sizeX.natAbs + w.sizeY.natAbs + tile.1.natAbs + tile.2.natAbs + 2)

/-- A rail tunnel entrance facing DIR_SE, built on a zeroed tile by owner 1
with rail type 0. -/
def railTunnelSE : TileData := MakeRailTunnel emptyTile 1 DIR_SE 0

/-- A rail tunnel entrance facing DIR_NW (the reverse of DIR_SE). -/
def railTunnelNW : TileData := MakeRailTunnel emptyTile 1 DIR_NW 0

/-- A road tunnel entrance whose stored base direction is DIAGDIR_SW. -/
def roadTunnelSW : TileData := MakeRoadTunnel emptyTile 1 DIAGDIR_SW 0 0

/-- An 8 by 8 flat world holding a matched tunnel pair: entrance at (0, 0)
facing DIR_SE, exit at (0, 3) facing DIR_NW, both at height 0. -/
def pairWorld : World where
  sizeX := 8
  sizeY := 8
  tileAt := fun p =>
    if p = ((0 : Int), (0 : Int)) then railTunnelSE
    else if p = ((0 : Int), (3 : Int)) then railTunnelNW
    else emptyTile
  heightAt := fun _ => 0

/-- A 1 by 2 flat world holding only the entrance at (0, 0) facing DIR_SE:
the walk leaves the grid at step 2 without finding an exit. -/
def cutWorld : World where
  sizeX := 1
  sizeY := 2
  tileAt := fun p => if p = ((0 : Int), (0 : Int)) then railTunnelSE else emptyTile
  heightAt := fun _ => 0

/-- A 4 by 3 world with a road tunnel of stored base direction DIAGDIR_SW at
(1, 1), height 0 there, and height 5 at (2, 1) so that a probe from (3, 1)
walks over the elevated tile down onto the tunnel tile. -/
def probeWorld : World where
  sizeX := 4
  sizeY := 3
  tileAt := fun p => if p = ((1 : Int), (1 : Int)) then roadTunnelSW else emptyTile
  heightAt := fun p => if p = ((2 : Int), (1 : Int)) then 5 else 0

/-- One step of delta from p is the first tile of the walk. -/
theorem stepN_one (p delta : Int × Int) :
    stepN p delta 1 = (p.1 + delta.1, p.2 + delta.2) := by
  simp [stepN]

/-- Walking j steps from the successor tile is walking j + 1 steps from p. -/
theorem stepN_succ (p delta : Int × Int) (j : Nat) :
    stepN (p.1 + delta.1, p.2 + delta.2) delta j = stepN p delta (j + 1) := by
  simp only [stepN, Prod.mk.injEq]
  constructor <;> push_cast <;> ring

/-- One unfolding of the tunnel-end walk. -/
theorem getOtherTunnelEndLoop_step (w : World) (delta : Int × Int) (rdir : Nat) (z : Int)
    (cur : Int × Int) (steps : Nat) :
    getOtherTunnelEndLoop w delta rdir z cur steps =
      if IsValidTile w (cur.1 + delta.1, cur.2 + delta.2) = false
          ∨ steps + 1 > MAX_TUNNEL_STEPS then none
      else if TunnelEndMatch w rdir z (cur.1 + delta.1, cur.2 + delta.2) then
        some (cur.1 + delta.1, cur.2 + delta.2)
      else getOtherTunnelEndLoop w delta rdir z (cur.1 + delta.1, cur.2 + delta.2) (steps + 1) := by
  rw [getOtherTunnelEndLoop]
  rfl

/-- If the first fully matching tile of the walk is reached at step n, within
the step bound, with every earlier visited tile valid, the walk returns it. -/
theorem getOtherTunnelEndLoop_first_match (w : World) (delta : Int × Int) (rdir : Nat)
    (z : Int) :
    ∀ (n : Nat) (cur : Int × Int) (steps : Nat),
      1 ≤ n → steps + n ≤ MAX_TUNNEL_STEPS →
      (∀ j, 1 ≤ j → j ≤ n → IsValidTile w (stepN cur delta j) = true) →
      (∀ j, 1 ≤ j → j < n → TunnelEndMatch w rdir z (stepN cur delta j) = false) →
      TunnelEndMatch w rdir z (stepN cur delta n) = true →
      getOtherTunnelEndLoop w delta rdir z cur steps = some (stepN cur delta n) := by
  intro n
  induction n with
  | zero =>
    intro cur steps h1 _ _ _ _
    exact absurd h1 (by omega)
  | succ m ih =>
    intro cur steps h1 h2 hv hnm hm
    have hv1 : IsValidTile w (cur.1 + delta.1, cur.2 + delta.2) = true := by
      have h := hv 1 (by omega) (by omega)
      rwa [stepN_one] at h
    have habort : ¬ (IsValidTile w (cur.1 + delta.1, cur.2 + delta.2) = false
        ∨ steps + 1 > MAX_TUNNEL_STEPS) := by
      push_neg
      exact ⟨by simp [hv1], by omega⟩
    rw [getOtherTunnelEndLoop_step, if_neg habort]
    rcases Nat.eq_zero_or_pos m with hm0 | hmpos
    · subst hm0
      have hmm : TunnelEndMatch w rdir z (cur.1 + delta.1, cur.2 + delta.2) = true := by
        have h := hm
        rw [show (0 : Nat) + 1 = 1 from rfl, stepN_one] at h
        exact h
      rw [if_pos hmm]
      simp [stepN_one]
    · have hnm1 : TunnelEndMatch w rdir z (cur.1 + delta.1, cur.2 + delta.2) = false := by
        have h := hnm 1 (by omega) (by omega)
        rwa [stepN_one] at h
      rw [if_neg (by simp [hnm1])]
      have hrec := ih (cur.1 + delta.1, cur.2 + delta.2) (steps + 1) hmpos (by omega)
        (fun j hj1 hj2 => by rw [stepN_succ]; exact hv (j + 1) (by omega) (by omega))
        (fun j hj1 hj2 => by rw [stepN_succ]; exact hnm (j + 1) (by omega) (by omega))
        (by rw [stepN_succ]; exact hm)
      rw [hrec, stepN_succ]

/-- If the walk reaches an off-grid tile at step n, or n is past the step
bound, with every earlier visited tile valid and not matching, it aborts. -/
theorem getOtherTunnelEndLoop_abort (w : World) (delta : Int × Int) (rdir : Nat) (z : Int) :
    ∀ (n : Nat) (cur : Int × Int) (steps : Nat),
      1 ≤ n →
      (∀ j, 1 ≤ j → j < n → IsValidTile w (stepN cur delta j) = true
        ∧ TunnelEndMatch w rdir z (stepN cur delta j) = false) →
      (IsValidTile w (stepN cur delta n) = false ∨ MAX_TUNNEL_STEPS + 1 ≤ steps + n) →
      getOtherTunnelEndLoop w delta rdir z cur steps = none := by
  intro n
  induction n with
  | zero =>
    intro cur steps h1 _ _
    exact absurd h1 (by omega)
  | succ m ih =>
    intro cur steps h1 hpre hend
    rcases Nat.eq_zero_or_pos m with hm0 | hmpos
    · subst hm0
      have hc : IsValidTile w (cur.1 + delta.1, cur.2 + delta.2) = false
          ∨ steps + 1 > MAX_TUNNEL_STEPS := by
        rcases hend with hinv | hb
        · left
          rw [show (0 : Nat) + 1 = 1 from rfl, stepN_one] at hinv
          exact hinv
        · right; omega
      rw [getOtherTunnelEndLoop_step, if_pos hc]
    · by_cases hb : steps + 1 > MAX_TUNNEL_STEPS
      · rw [getOtherTunnelEndLoop_step, if_pos (Or.inr hb)]
      · have hstep1 := hpre 1 (by omega) (by omega)
        rw [stepN_one] at hstep1
        have habort : ¬ (IsValidTile w (cur.1 + delta.1, cur.2 + delta.2) = false
            ∨ steps + 1 > MAX_TUNNEL_STEPS) := by
          push_neg
          exact ⟨by simp [hstep1.1], by omega⟩
        rw [getOtherTunnelEndLoop_step, if_neg habort, if_neg (by simp [hstep1.2])]
        exact ih (cur.1 + delta.1, cur.2 + delta.2) (steps + 1) hmpos
          (fun j hj1 hj2 => by rw [stepN_succ]; exact hpre (j + 1) (by omega) (by omega))
          (by rcases hend with hinv | hb2
              · left; rw [stepN_succ]; exact hinv
              · right; omega)

/-- Both tunnel constructors leave the tile-type tag at MP_TUNNELBRIDGE. -/
theorem getTileType_makeRoadTunnel (t : TileData) (o d road_rt tram_rt : Nat) :
    GetTileType (MakeRoadTunnel t o d road_rt tram_rt) = MP_TUNNELBRIDGE := by
  by_cases h : o = OWNER_TOWN <;>
    simp [MakeRoadTunnel, SetRoadTypes, SetRoadOwner, SetTileOwner, SetTileType,
      GetTileType, RTT_ROAD, RTT_TRAM, h]

/-- The rail constructor leaves the tile-type tag at MP_TUNNELBRIDGE. -/
theorem getTileType_makeRailTunnel (t : TileData) (o d r : Nat) :
    GetTileType (MakeRailTunnel t o d r) = MP_TUNNELBRIDGE := by
  by_cases h : d = DIR_N ∨ d = DIR_E ∨ d = DIR_S ∨ d = DIR_W <;>
    simp [MakeRailTunnel, SetRailType, SetTileOwner, SetTileType, GetTileType, h]

/-- On any MP_TUNNELBRIDGE tile the reservation setter succeeds and leaves the
tile unchanged, because the stubbed transport getter always yields rail. -/
theorem setReservation_noop (u : TileData) (b : Bool)
    (h : GetTileType u = MP_TUNNELBRIDGE) : SetTunnelBridgeReservation u b = some u := by
  simp [SetTunnelBridgeReservation, IsTileType, GetTunnelBridgeTransportType, h]

/-- On any MP_TUNNELBRIDGE tile the reservation getter succeeds with false. -/
theorem hasReservation_false (u : TileData) (h : GetTileType u = MP_TUNNELBRIDGE) :
    HasTunnelBridgeReservation u = some false := by
  simp [HasTunnelBridgeReservation, IsTileType, GetTunnelBridgeTransportType, h]

/-- On any MP_TUNNELBRIDGE tile the reserved track bits are TRACK_BIT_NONE. -/
theorem reservationTrackBits_none (u : TileData) (h : GetTileType u = MP_TUNNELBRIDGE) :
    GetTunnelBridgeReservationTrackBits u = some TRACK_BIT_NONE := by
  unfold GetTunnelBridgeReservationTrackBits
  rw [hasReservation_false u h]

/-- Any sequence of reservation writes on an MP_TUNNELBRIDGE tile leaves the
tile unchanged. -/
theorem reservation_fold_noop (u : TileData) (h : GetTileType u = MP_TUNNELBRIDGE) :
    ∀ bs : List Bool,
      List.foldl (fun acc b => acc.bind fun x => SetTunnelBridgeReservation x b)
        (some u) bs = some u := by
  intro bs
  induction bs with
  | nil => rfl
  | cons b bs ih =>
    have h1 : (some u).bind (fun x => SetTunnelBridgeReservation x b) = some u := by
      simp [setReservation_noop u b h]
    rw [List.foldl_cons, h1]
    exact ih

/-- C1: after MakeRailTunnel with the orthogonal direction DIR_S the tile does
not satisfy IsTunnelTile: storing the high direction bits in m5 bits 6..7 sets
bit 7, the wormhole-kind bit, so the tile decodes as a bridge even though its
type tag is MP_TUNNELBRIDGE (likewise for DIR_W; DIR_E stays a tunnel).  This
refutes the claim that MakeRailTunnel always yields IsTunnelTile = true. -/
theorem makeRailTunnel_DIR_S_not_tunnel_tile :
    IsTunnelTile (MakeRailTunnel emptyTile 1 DIR_S 0) = false
    ∧ IsTileType (MakeRailTunnel emptyTile 1 DIR_S 0) MP_TUNNELBRIDGE = true
    ∧ IsTunnel (MakeRailTunnel emptyTile 1 DIR_S 0) = false
    ∧ IsTunnelTile (MakeRailTunnel emptyTile 1 DIR_W 0) = false
    ∧ IsTunnelTile (MakeRailTunnel emptyTile 1 DIR_E 0) = true := by
  decide

/-- C2: the direction round-trip fails.  After MakeRailTunnel with DIR_S the
full-direction decode yields DIR_NE, not DIR_S (the stored bit 7 makes the
tile decode as a bridge, so the extended bits are ignored); and after
MakeRailTunnel with DIR_E, GetTunnelBridgeDirection yields DIR_N rather than
the diagonal-direction floor DIAGDIR_SE of DIR_E, because the getter is
stubbed to the constant DIR_N. -/
theorem tunnel_direction_round_trip_fails :
    GetTunnelBridgeFullDirection (MakeRailTunnel emptyTile 1 DIR_S 0) = DIR_NE
    ∧ DIR_NE ≠ DIR_S
    ∧ GetTunnelBridgeDirection (MakeRailTunnel emptyTile 1 DIR_E 0) = DIR_N
    ∧ DirToDiagDir DIR_E = DIAGDIR_SE
    ∧ DIR_N ≠ DIAGDIR_SE := by
  decide

/-- C3: GetOtherTunnelEnd returns the first tile along the decoded direction
(starting one step away) that is simultaneously a tunnel tile with the
reversed full direction and the entrance height, provided that first match is
reached at some step k within the step bound and every visited tile up to it
is inside the grid: every earlier tile, in particular one matching only the
direction or only the height, is stepped over and never returned. -/
theorem getOtherTunnelEnd_returns_first_matching_tile
    (w : World) (p : Int × Int) (k : Nat)
    (hstart : IsTunnelTile (w.tileAt p) = true)
    (hk1 : 1 ≤ k) (hk2 : k ≤ MAX_TUNNEL_STEPS)
    (hvalid : ∀ j, 1 ≤ j → j ≤ k →
      IsValidTile w (stepN p (TileOffsByDir (GetTunnelBridgeFullDirection (w.tileAt p))) j)
        = true)
    (hskip : ∀ j, 1 ≤ j → j < k →
      TunnelEndMatch w (ReverseDir (GetTunnelBridgeFullDirection (w.tileAt p))) (GetTileZ w p)
        (stepN p (TileOffsByDir (GetTunnelBridgeFullDirection (w.tileAt p))) j) = false)
    (hmatch : TunnelEndMatch w (ReverseDir (GetTunnelBridgeFullDirection (w.tileAt p)))
        (GetTileZ w p)
        (stepN p (TileOffsByDir (GetTunnelBridgeFullDirection (w.tileAt p))) k) = true) :
    GetOtherTunnelEnd w p =
      some (stepN p (TileOffsByDir (GetTunnelBridgeFullDirection (w.tileAt p))) k) := by
  unfold GetOtherTunnelEnd
  exact getOtherTunnelEndLoop_first_match w _ _ _ k p 0 hk1 (by omega) hvalid hskip hmatch

/-- Witness for C3: in pairWorld the entrance at (0, 0) facing DIR_SE finds
its matching exit at (0, 3), stepping over the two intermediate tiles. -/
theorem getOtherTunnelEnd_returns_first_matching_tile_witness :
    GetOtherTunnelEnd pairWorld (0, 0) = some (0, 3) := by
  have h := getOtherTunnelEnd_returns_first_matching_tile pairWorld (0, 0) 3
    (by decide) (by decide) (by decide)
    (fun j hj1 hj2 => by interval_cases j <;> decide)
    (fun j hj1 hj2 => by interval_cases j <;> decide)
    (by decide)
  rw [h]
  decide

/-- C4: IsTunnelInWayDir decides its direction condition with the stubbed
GetTunnelBridgeDirection, which is the constant DIR_N, instead of the tile's
stored base direction: in probeWorld the tunnel at (1, 1) stores base
direction DIAGDIR_SW at height 0, yet the probe at its height with the
matching direction DIAGDIR_SW returns false, while the probe with the wrong
direction DIAGDIR_NE (numerically equal to DIR_N) returns true.  This refutes
the claim that the predicate compares against the tile's base direction. -/
theorem isTunnelInWayDir_direction_check_uses_stub :
    GB (probeWorld.tileAt (1, 1)).m5 0 2 = DIAGDIR_SW
    ∧ GetTileZ probeWorld (1, 1) = 0
    ∧ IsTunnelTile (probeWorld.tileAt (1, 1)) = true
    ∧ IsTunnelInWayDir probeWorld (3, 1) 0 DIAGDIR_SW = false
    ∧ IsTunnelInWayDir probeWorld (0, 1) 0 DIAGDIR_NE = true := by
  decide

/-- C5: on a freshly made road tunnel (stored transport field TRANSPORT_ROAD)
none of the reservation operations fails its rail-only precondition: the
assertion compares the stubbed GetTunnelBridgeTransportType, which is the
constant TRANSPORT_RAIL, so the getter silently returns false, the setter
silently no-ops, and the track-bits query silently returns TRACK_BIT_NONE.
This refutes the claim that the precondition check fires. -/
theorem reservation_precondition_not_enforced_on_road_tunnel :
    GB (MakeRoadTunnel emptyTile 1 DIAGDIR_NE 0 0).m5 2 2 = TRANSPORT_ROAD
    ∧ TRANSPORT_ROAD ≠ TRANSPORT_RAIL
    ∧ HasTunnelBridgeReservation (MakeRoadTunnel emptyTile 1 DIAGDIR_NE 0 0) = some false
    ∧ SetTunnelBridgeReservation (MakeRoadTunnel emptyTile 1 DIAGDIR_NE 0 0) true
        = some (MakeRoadTunnel emptyTile 1 DIAGDIR_NE 0 0)
    ∧ GetTunnelBridgeReservationTrackBits (MakeRoadTunnel emptyTile 1 DIAGDIR_NE 0 0)
        = some TRACK_BIT_NONE := by
  decide

/-- C6: GetTunnelBridgeDirection does not read the base 2-bit direction field:
after MakeRoadTunnel with DIAGDIR_SE the stored field holds DIAGDIR_SE but the
getter returns the constant DIR_N. -/
theorem getTunnelBridgeDirection_constant_DIR_N :
    GB (MakeRoadTunnel emptyTile 1 DIAGDIR_SE 0 0).m5 0 2 = DIAGDIR_SE
    ∧ GetTunnelBridgeDirection (MakeRoadTunnel emptyTile 1 DIAGDIR_SE 0 0) = DIR_N
    ∧ DIR_N ≠ DIAGDIR_SE := by
  decide

/-- C7: GetTunnelBridgeTransportType does not read the 2-bit transport field:
after MakeRoadTunnel the stored field holds TRANSPORT_ROAD but the getter
returns the constant TRANSPORT_RAIL. -/
theorem getTunnelBridgeTransportType_constant_rail :
    GB (MakeRoadTunnel emptyTile 1 DIAGDIR_NE 0 0).m5 2 2 = TRANSPORT_ROAD
    ∧ GetTunnelBridgeTransportType (MakeRoadTunnel emptyTile 1 DIAGDIR_NE 0 0)
        = TRANSPORT_RAIL
    ∧ TRANSPORT_RAIL ≠ TRANSPORT_ROAD := by
  decide

/-- C8: the snow/desert round trip fails: on a tunnel/bridge tile the setter
leaves the tile unchanged and the getter returns the constant false, so
setting the flag to true and reading it back yields false, not true. -/
theorem snow_or_desert_round_trip_fails :
    SetTunnelBridgeSnowOrDesert (MakeRoadTunnel emptyTile 1 DIAGDIR_NE 0 0) true
      = some (MakeRoadTunnel emptyTile 1 DIAGDIR_NE 0 0)
    ∧ HasTunnelBridgeSnowOrDesert (MakeRoadTunnel emptyTile 1 DIAGDIR_NE 0 0) = some false := by
  decide

/-- C9: if the walk of GetOtherTunnelEnd reaches an off-grid tile at some step
n, or runs past the explicit MAX_TUNNEL_STEPS bound, with no earlier visited
tile matching the end condition, it hits NOT_REACHED (modelled none): it never
returns a tile or a recoverable value in that case. -/
theorem getOtherTunnelEnd_fatal_when_no_match_in_bounds
    (w : World) (p : Int × Int) (n : Nat)
    (hstart : IsTunnelTile (w.tileAt p) = true)
    (hn : 1 ≤ n)
    (hwalk : ∀ j, 1 ≤ j → j < n →
      IsValidTile w (stepN p (TileOffsByDir (GetTunnelBridgeFullDirection (w.tileAt p))) j)
          = true
      ∧ TunnelEndMatch w (ReverseDir (GetTunnelBridgeFullDirection (w.tileAt p)))
          (GetTileZ w p)
          (stepN p (TileOffsByDir (GetTunnelBridgeFullDirection (w.tileAt p))) j) = false)
    (hstop : IsValidTile w
        (stepN p (TileOffsByDir (GetTunnelBridgeFullDirection (w.tileAt p))) n) = false
      ∨ MAX_TUNNEL_STEPS + 1 ≤ n) :
    GetOtherTunnelEnd w p = none := by
  unfold GetOtherTunnelEnd
  refine getOtherTunnelEndLoop_abort w _ _ _ n p 0 hn hwalk ?_
  rcases hstop with h | h
  · exact Or.inl h
  · right; omega

/-- Witness for C9: in cutWorld the entrance at (0, 0) faces DIR_SE but the
grid ends before any matching exit, so the walk aborts with none. -/
theorem getOtherTunnelEnd_fatal_when_no_match_in_bounds_witness :
    GetOtherTunnelEnd cutWorld (0, 0) = none :=
  getOtherTunnelEnd_fatal_when_no_match_in_bounds cutWorld (0, 0) 2 (by decide) (by decide)
    (fun j hj1 hj2 => by interval_cases j; exact ⟨by decide, by decide⟩)
    (Or.inl (by decide))

/-- C10: from the public interface a reservation can never be observed: after
constructing a tunnel with MakeRoadTunnel or MakeRailTunnel, any sequence of
SetTunnelBridgeReservation calls leaves the tile unchanged,
HasTunnelBridgeReservation returns false, and
GetTunnelBridgeReservationTrackBits returns TRACK_BIT_NONE. -/
theorem reservation_track_bits_always_none (t : TileData) (o d r road_rt tram_rt : Nat)
    (bs : List Bool) :
    (List.foldl (fun acc b => acc.bind fun x => SetTunnelBridgeReservation x b)
        (some (MakeRoadTunnel t o d road_rt tram_rt)) bs
        = some (MakeRoadTunnel t o d road_rt tram_rt)
      ∧ HasTunnelBridgeReservation (MakeRoadTunnel t o d road_rt tram_rt) = some false
      ∧ GetTunnelBridgeReservationTrackBits (MakeRoadTunnel t o d road_rt tram_rt)
        = some TRACK_BIT_NONE)
    ∧ (List.foldl (fun acc b => acc.bind fun x => SetTunnelBridgeReservation x b)
        (some (MakeRailTunnel t o d r)) bs = some (MakeRailTunnel t o d r)
      ∧ HasTunnelBridgeReservation (MakeRailTunnel t o d r) = some false
      ∧ GetTunnelBridgeReservationTrackBits (MakeRailTunnel t o d r) = some TRACK_BIT_NONE) := by
  have h1 := getTileType_makeRoadTunnel t o d road_rt tram_rt
  have h2 := getTileType_makeRailTunnel t o d r
  exact ⟨⟨reservation_fold_noop _ h1 bs, hasReservation_false _ h1,
      reservationTrackBits_none _ h1⟩,
    ⟨reservation_fold_noop _ h2 bs, hasReservation_false _ h2,
      reservationTrackBits_none _ h2⟩⟩

end OpenTTD
